import Mathlib

/-!
Verification development for the Snowboard plugin runtime
(registry + plugin loader + trait composition engine).

The definitions below are a shallow embedding of the TypeScript sources:

* `src/packages/base/src/main/PluginLoader.ts` — the loader state machine
  (`getInstance`, `initialiseSingleton`, `dependenciesFulfilled`, `mock`,
  `unmock`, `hasMethod`) and the trait composer (`loadTraits`);
* `src/unnamed/part_003` (second half) — the older JavaScript variant of
  `PluginLoader`, whose `loadTraits` differs from the TypeScript one;
* `src/unnamed/part_001` — `InnerProxyHandler.get`, the internal access
  mediator;
* `src/unnamed/part_000` (second part) — `PluginBase`, in particular
  `destructor`.

JavaScript objects are modelled as association lists of string-keyed
properties (`Props`), with a flattened prototype chain; property reads,
`Object.defineProperties`, `Object.getOwnPropertyNames` and descriptor
lookups are modelled over that representation.  The `Snowboard` registry
class itself is not under `src/`; the few registry operations the loader
calls (`hasPlugin`, `getPluginNames`, `hasTrait`, `getTrait`) are modelled
from the spec as lookups in a table of registered (lowercase) names — see
the doc comments on those definitions.
-/

namespace Snowboard

/-- A JavaScript runtime value, as far as the loader code observes values:
`undefined`, `null`, booleans, numbers (modelled as integers), strings,
functions and objects.  Functions and objects are identified by an id; the
loader never inspects their contents, only compares, stores and invokes
them. -/
inductive JsVal where
  | undefined
  | nullv
  | boolean (b : Bool)
  | num (n : Int)
  | str (s : String)
  | fn (id : Nat)
  | obj (id : Nat)
deriving DecidableEq, Repr

/-- JavaScript truthiness of a modelled value (`undefined`, `null`, `false`,
`0` and the empty string are falsy; every function and object is truthy). -/
def truthy : JsVal → Bool
  | .undefined => false
  | .nullv => false
  | .boolean b => b
  | .num n => n != 0
  | .str s => s != ""
  | .fn _ => true
  | .obj _ => true

/-- Whether a value is a function, as `typeof v === 'function'` observes it. -/
def isFunctionVal : JsVal → Bool
  | .fn _ => true
  | _ => false

/-- The embedding of JavaScript's `String.prototype.toLowerCase` used by
`getDependencies` and the proxy handlers: lowercase every character
(`Char.toLower` mapped over the string's characters). -/
def jsToLower (s : String) : String :=
  ⟨s.data.map Char.toLower⟩

/-- Own-property table of a JavaScript object: string keys to values, in
insertion order. -/
abbrev Props := List (String × JsVal)

/-- First-match lookup in a string-keyed association list. -/
def lookupAssoc {α : Type} : List (String × α) → String → Option α
  | [], _ => none
  | (k, v) :: rest, key => if k = key then some v else lookupAssoc rest key

/-- JavaScript property assignment `o[k] = v` on an own-property table:
updates the value in place if the key exists, otherwise appends it. -/
def setAssoc {α : Type} : List (String × α) → String → α → List (String × α)
  | [], key, v => [(key, v)]
  | (k, w) :: rest, key, v =>
    if k = key then (k, v) :: rest else (k, w) :: setAssoc rest key v

/-- JavaScript `delete o[k]` on an own-property table. -/
def eraseAssoc {α : Type} : List (String × α) → String → List (String × α)
  | [], _ => []
  | (k, w) :: rest, key =>
    if k = key then rest else (k, w) :: eraseAssoc rest key

/-- Property read on a plain property table: a missing key reads as
`undefined`. -/
def propsGet (props : Props) (key : String) : JsVal :=
  (lookupAssoc props key).getD .undefined

/-- A plugin instance as the trait composer sees it: its own properties
(those assigned by the constructors, plus anything grafted on by
`Object.defineProperties`) and the properties visible on its prototype
chain (`Object.getPrototypeOf(instance)` and above), flattened into one
table.  The chain of a `PluginBase`-derived instance carries `constructor`,
`construct`, `init`, `getSnowboard`, `destruct`, `destructor`, `detach`,
`isSingleton`, `dependencies`, `traits` and `listens`. -/
structure PluginInstance where
  own : Props
  protoChain : Props
deriving DecidableEq, Repr

/-- Read a property of the instance's prototype chain, as
`Object.getPrototypeOf(instance)[key]` does (own properties of the instance
itself are not consulted). -/
def protoGet (inst : PluginInstance) (key : String) : JsVal :=
  propsGet inst.protoChain key

/-- Full property read `instance[key]`: own properties first, then the
prototype chain. -/
def instGet (inst : PluginInstance) (key : String) : JsVal :=
  match lookupAssoc inst.own key with
  | some v => v
  | none => protoGet inst key

/-- A value reached by the trait-collection walk of the TypeScript
`loadTraits` (PluginLoader.ts lines 279-295), which starts at the instance
and reassigns `currentPrototype = currentPrototype.prototype` each round.
An `objNode` is an object as the walk observes it: the `name` of its
`constructor`, whether its `traits` member is a function, the trait names
a `traits()` call returns, and the value of its `prototype` property —
which becomes the next `currentPrototype`.  A `value` is a non-object in
that position: reading `.constructor` of `undefined` or `null` throws a
`TypeError` at the loop condition, and a primitive (whose boxed wrapper
has no `prototype` member) throws one iteration later, so the walk fails
on every `value`; an object- or function-valued `prototype` slot is
represented by a further `objNode`.  A class instance has no own or
inherited `prototype` member, so its node carries
`prototypeProp = .value .undefined`. -/
inductive ProtoValue where
  | value (v : JsVal)
  | objNode (ctorName : String) (traitsIsFunction : Bool) (traitNames : List String)
      (prototypeProp : ProtoValue)
deriving DecidableEq, Repr

/-- The plugin class held by a loader (`PluginLoader.#instance`), as the
loader code observes it:

* `dependencies` — the list returned by `this.#instance.prototype.dependencies()`;
* `singleton` — whether `this.#instance.prototype.isSingleton() === true`;
* `protoProps` — the properties readable through `this.#instance.prototype`
  (own properties of the prototype object together with those it inherits,
  flattened), which `hasMethod`, `callMethod` and the `mock` guard consult;
* `parentClassProps` — the properties readable through
  `Object.getPrototypeOf(this.#instance)`, i.e. through the parent class
  object (its `length`, `name`, `prototype` and any static members),
  which `mock` consults when recording the displaced original;
* `freshWalk` — the trait-collection walk's view of an instance freshly
  produced by `new this.#instance(...)`: its constructor's name is the
  plugin class's name, its `traits` member is the (inherited) method, and
  its `prototype` member is `undefined`;
* `freshInstance` — the trait composer's view of that fresh instance (own
  properties assigned by the constructors, prototype-chain members). -/
structure PluginDef where
  dependencies : List String
  singleton : Bool
  protoProps : Props
  parentClassProps : Props
  freshWalk : ProtoValue
  freshInstance : PluginInstance
deriving DecidableEq, Repr

/-- Mutable state of one `PluginLoader`:

* `instances` — ids of the live instances, in insertion order
  (`this.#instances`, a `Set`);
* `initialised` — the sealed singleton status object (`this.#singleton.initialised`);
* `nextId` — a fresh-name supply for instance identities (an instance's
  identity is its own reference; we name references by allocation order);
* `mocks` — `this.#mocks`, method name to mock callback (callbacks named
  by id);
* `originals` — `this.#originalFunctions`, method name to the recorded
  displaced value. -/
structure LoaderState where
  instances : List Nat
  initialised : Bool
  nextId : Nat
  mocks : List (String × Nat)
  originals : List (String × JsVal)
deriving DecidableEq, Repr

/-- State of a loader as built by the `PluginLoader` constructor: no
instances, singleton status not initialised, no mocks. -/
def initialState : LoaderState :=
  { instances := [], initialised := false, nextId := 0, mocks := [], originals := [] }

/-- Errors the loader raises.  `missingDependency` carries the loader's
plugin name and the unmet dependency names interpolated into the thrown
message; `unknownMethod` carries the method name of a failed `mock`;
`typeError` stands for a `TypeError` raised by the JavaScript runtime
itself (reading or setting a property of `undefined`, or passing an
`undefined` property descriptor to `Object.defineProperties`). -/
inductive LoaderError where
  | missingDependency (plugin : String) (unmet : List String)
  | unknownMethod (method : String)
  | typeError
deriving DecidableEq, Repr

/-- Steps `getInstance`/`initialiseSingleton` complete on an instance, in
the order the source performs them: invoke the factory
(`new this.#instance(this.#snowboard, ...parameters)`, with the
`InnerProxyHandler`-mediated registry handle), overwrite the instance's
`detach` slot with a hook removing it from `this.#instances`, call the
`construct` hook, complete `loadTraits`, call the `init` hook, and add
the instance to `this.#instances`.  A trace records the steps that
finished before the call returned or threw. -/
inductive LoaderEvent where
  | factory (id : Nat)
  | attachDetach (id : Nat)
  | constructHook (id : Nat)
  | loadTraitsRun (id : Nat)
  | initHook (id : Nat)
  | recordLive (id : Nat)
deriving DecidableEq, Repr

/-- Modelled from the spec: `Snowboard.hasPlugin` is missing from `src/`
(only its callers are).  Per the spec it is a case-insensitive existence
check; we model the registry as the list of its registered lowercase
plugin names, and `hasPlugin` as plain membership.  Every name the loader
passes in is already lowercased (`getDependencies` lowercases, and the
proxy handlers pass `prop.toLowerCase()`), so membership of the lowercase
key list is exactly the spec's case-insensitive check at these call
sites. -/
def hasPlugin (registry : List String) (name : String) : Bool :=
  registry.contains name

/-- Modelled from the spec: `Snowboard.getPluginNames` is missing from
`src/`; per the spec it returns all registered plugin names.  With the
registry modelled as its list of registered lowercase names, it is the
registry itself. -/
def getPluginNames (registry : List String) : List String :=
  registry

/-- `PluginLoader.getDependencies` (PluginLoader.ts lines 198-200): the
factory's declared dependency list, lowercased. -/
def getDependencies (p : PluginDef) : List String :=
  p.dependencies.map (fun item => jsToLower item)

/-- `PluginLoader.dependenciesFulfilled` (PluginLoader.ts lines 205-216):
walks the dependencies with a `forEach`, clearing a `fulfilled` flag on
each name the registry lacks. -/
def dependenciesFulfilled (registry : List String) (p : PluginDef) : Bool :=
  (getDependencies p).foldl
    (fun fulfilled plugin => if hasPlugin registry plugin then fulfilled else false)
    true

/-- The unmet dependency names `getInstance` interpolates into the
`missingDependency` message (PluginLoader.ts lines 100-102): the
dependencies not among `getPluginNames()`. -/
def unmetDependencies (registry : List String) (p : PluginDef) : List String :=
  (getDependencies p).filter (fun item => !(getPluginNames registry).contains item)

/-- `PluginLoader.hasMethod` (PluginLoader.ts lines 82-84):
`typeof this.#instance.prototype[methodName] === 'function'`. -/
def hasMethod (p : PluginDef) (methodName : String) : Bool :=
  isFunctionVal (propsGet p.protoProps methodName)

/-- A registered trait class as `loadTraits` observes it:

* `ctorProps` — the own properties of `new TraitInstance()` in creation
  order (`Object.keys(traitInstance)`; for a `Trait`-derived class the
  base constructor assigns `this.snowboard`, here `undefined` since the
  composer constructs the trait without arguments);
* `protoOwnProps` — the own properties of `TraitInstance.prototype`
  (the trait's methods, plus `constructor`), used by the part_003 variant;
* `classOwnNames` — `Object.getOwnPropertyNames(TraitInstance)`, the own
  property names of the class object itself (`length`, `name`, `prototype`
  and any static members), used by the TypeScript variant;
* `parentClassProps` — the own properties of
  `Object.getPrototypeOf(TraitInstance)`, the parent class object, from
  which the TypeScript variant takes its descriptors. -/
structure TraitClass where
  ctorProps : Props
  protoOwnProps : Props
  classOwnNames : List String
  parentClassProps : Props
deriving DecidableEq, Repr

/-- A property-descriptor table as built by `loadTraits`: keys assigned to
either a descriptor carrying a value (`some v`) or to `undefined`
(`none`, when `Object.getOwnPropertyDescriptor` found nothing). -/
abbrev DescProps := List (String × Option JsVal)

/-- The reserved member names the TypeScript `loadTraits` skips when
collecting trait members (PluginLoader.ts lines 315-323). -/
def reservedNamesTS : List String :=
  ["constructor", "construct", "init", "getSnowboard", "destruct", "destructor", "detach"]

/-- The reserved member names the part_003 `loadTraits` skips when
collecting trait prototype members (part_003 line 512). -/
def reservedNamesJS : List String :=
  ["constructor", "construct", "destruct", "destructor"]

/-- The descriptor table built from the trait constructor's own properties
(PluginLoader.ts lines 308-311 / part_003 lines 505-508):
`Object.keys(traitInstance)` reduced through `getOwnPropertyDescriptor`,
which always finds a descriptor for an own key. -/
def ctorDescriptors (t : TraitClass) : DescProps :=
  t.ctorProps.map (fun p => (p.1, some p.2))

/-- Descriptor collection of the TypeScript `loadTraits`
(PluginLoader.ts lines 308-332): constructor-assigned properties, then —
for every own property name of the trait class object that is not
reserved — the descriptor taken from the parent class object
(`Object.getOwnPropertyDescriptor(Object.getPrototypeOf(TraitInstance), propertyName)`,
which may be `undefined`). -/
def descriptorsTS (t : TraitClass) : DescProps :=
  t.classOwnNames.foldl
    (fun acc name =>
      if reservedNamesTS.contains name then acc
      else setAssoc acc name (lookupAssoc t.parentClassProps name))
    (ctorDescriptors t)

/-- Descriptor collection of the part_003 `loadTraits` (part_003 lines
505-521): constructor-assigned properties, then — for every own property
of `TraitInstance.prototype` that is not reserved — its descriptor from
that prototype. -/
def descriptorsJS (t : TraitClass) : DescProps :=
  t.protoOwnProps.foldl
    (fun acc p =>
      if reservedNamesJS.contains p.1 then acc
      else setAssoc acc p.1 (some p.2))
    (ctorDescriptors t)

/-- Errors raised by the JavaScript runtime inside the trait composer:
`Object.defineProperties` throws a `TypeError` when handed an `undefined`
property descriptor (it validates every descriptor before defining any). -/
inductive JsError where
  | typeError
deriving DecidableEq, Repr

/-- Application of one collected descriptor table onto the instance
(PluginLoader.ts lines 334-343 / part_003 lines 523-532): filter the
table down to the keys the `alreadyPresent` check reads as `undefined`,
then `Object.defineProperties(instance, newDescriptors)` — which first
validates all descriptors (throwing a `TypeError` on an `undefined` one)
and then defines each as an own property of the instance. -/
def applyDescriptors (alreadyPresent : PluginInstance → String → JsVal)
    (descriptors : DescProps) (inst : PluginInstance) : Except JsError PluginInstance :=
  if (descriptors.filter (fun p => alreadyPresent inst p.1 == JsVal.undefined)).any
      (fun p => p.2.isNone) then
    .error .typeError
  else
    .ok { inst with
      own := (descriptors.filter (fun p => alreadyPresent inst p.1 == JsVal.undefined)).foldl
        (fun own p => setAssoc own p.1 (p.2.getD .undefined)) inst.own }

/-- One iteration of the TypeScript `loadTraits` application loop for a
registered trait (PluginLoader.ts lines 304-348): collect the descriptors,
filter out keys for which `Object.getPrototypeOf(instance)[key]` — a read
on the prototype chain only, not on the instance's own properties — is not
`undefined`, and define the rest on the instance.  The trait's own
`construct` hook (lines 346-348) runs trait code whose effects are outside
the composition mechanism and is not modelled. -/
def applyOneTraitTS (t : TraitClass) (inst : PluginInstance) : Except JsError PluginInstance :=
  applyDescriptors protoGet (descriptorsTS t) inst

/-- One iteration of the part_003 `loadTraits` application loop for a
registered trait (part_003 lines 501-537): collect the descriptors, filter
out keys for which `instance[key]` — own properties included — is not
`undefined`, and define the rest on the instance. -/
def applyOneTraitJS (t : TraitClass) (inst : PluginInstance) : Except JsError PluginInstance :=
  applyDescriptors instGet (descriptorsJS t) inst

/-- Modelled from the spec: `Snowboard.hasTrait`/`Snowboard.getTrait` are
missing from `src/` (only their callers are).  Per the spec the registry
maps trait names to their descriptors; we model it as an association list
and both operations as one lookup (`hasTrait` is success of the lookup). -/
def lookupTrait (traitRegistry : List (String × TraitClass)) (name : String) :
    Option TraitClass :=
  lookupAssoc traitRegistry name

/-- The `traits.forEach` application loop of the TypeScript `loadTraits`
(PluginLoader.ts lines 298-349) over the collected, deduplicated trait
name list: a name the registry lacks emits a warning (carrying the trait
name interpolated into the message) and is skipped; a registered trait is
applied, a thrown `TypeError` propagating out of the loop.  Returns the
composed instance and the warnings emitted. -/
def applyTraitsTS (traitRegistry : List (String × TraitClass)) :
    List String → PluginInstance → Except JsError (PluginInstance × List String)
  | [], inst => .ok (inst, [])
  | name :: rest, inst =>
    match lookupTrait traitRegistry name with
    | none => (applyTraitsTS traitRegistry rest inst).map (fun r => (r.1, name :: r.2))
    | some t =>
      (applyOneTraitTS t inst).bind (fun inst1 => applyTraitsTS traitRegistry rest inst1)

/-- The `traits.forEach` application loop of the part_003 `loadTraits`
(part_003 lines 495-538), same shape as the TypeScript one but with the
part_003 per-trait application. -/
def applyTraitsJS (traitRegistry : List (String × TraitClass)) :
    List String → PluginInstance → Except JsError (PluginInstance × List String)
  | [], inst => .ok (inst, [])
  | name :: rest, inst =>
    match lookupTrait traitRegistry name with
    | none => (applyTraitsJS traitRegistry rest inst).map (fun r => (r.1, name :: r.2))
    | some t =>
      (applyOneTraitJS t inst).bind (fun inst1 => applyTraitsJS traitRegistry rest inst1)

/-- The trait-collection walk of the TypeScript `loadTraits`
(PluginLoader.ts lines 279-295): `currentPrototype` starts at the
instance; while `currentPrototype.constructor.name !== 'Object'`, the
names returned by `currentPrototype.traits()` (when `traits` is a
function) are added to a `Set` (insertion order, duplicates dropped) and
`currentPrototype` is reassigned to `currentPrototype.prototype`.  On a
non-object the loop condition's `.constructor` dereference throws a
`TypeError` (for a primitive, one boxed iteration later — same outcome).
Since class instances have no `prototype` member, the walk throws for
every plugin instance whose class is not literally named `Object`; for
one that is, the loop body never runs and no names are collected. -/
def collectTraitsWalk : ProtoValue → List String → Except JsError (List String)
  | .value _, _ => .error .typeError
  | .objNode ctorName traitsIsFunction traitNames proto, acc =>
    if ctorName = "Object" then .ok acc
    else
      collectTraitsWalk proto
        (if traitsIsFunction then
          traitNames.foldl (fun a t => if a.contains t then a else a ++ [t]) acc
        else acc)

/-- The full TypeScript `loadTraits` (PluginLoader.ts lines 278-350):
run the trait-collection walk from the instance, then — only if the walk
returned — the application loop over the collected names. -/
def loadTraitsTS (traitRegistry : List (String × TraitClass)) (start : ProtoValue)
    (inst : PluginInstance) : Except JsError (PluginInstance × List String) :=
  (collectTraitsWalk start []).bind
    (fun names => applyTraitsTS traitRegistry names inst)

/-- The construction block shared by the non-singleton branch of
`getInstance` (PluginLoader.ts lines 129, 141-145) and by
`initialiseSingleton` (lines 185-190): invoke the factory with the
mediated registry handle, overwrite the instance's `detach` slot with the
removal hook, call `construct`, then run `loadTraits` on the fresh
instance.  If `loadTraits` throws — which it does for every plugin class
not named `Object`, at the line-294 walk — the `TypeError` propagates:
`init` is not called and the instance is not recorded.  Otherwise `init`
runs and the instance is added to the live list.  Returns the new state,
the trace of completed steps, and the instance id or the error. -/
def buildInstance (traitRegistry : List (String × TraitClass)) (p : PluginDef)
    (s : LoaderState) : LoaderState × List LoaderEvent × Except LoaderError Nat :=
  let id := s.nextId
  let s1 := { s with nextId := id + 1 }
  match loadTraitsTS traitRegistry p.freshWalk p.freshInstance with
  | .error _ =>
    (s1, [.factory id, .attachDetach id, .constructHook id], .error .typeError)
  | .ok _ =>
    ({ s1 with instances := s1.instances ++ [id] },
     [.factory id, .attachDetach id, .constructHook id, .loadTraitsRun id,
      .initHook id, .recordLive id],
     .ok id)

/-- `PluginLoader.initialiseSingleton` (PluginLoader.ts lines 180-193):
no-op unless the plugin is a singleton; otherwise runs the construction
block.  `this.#singleton.initialised = true` (line 192) executes only if
the block completed; when `loadTraits` throws, the error propagates with
the live list still empty and `initialised` still false. -/
def initialiseSingleton (traitRegistry : List (String × TraitClass)) (p : PluginDef)
    (s : LoaderState) : LoaderState × List LoaderEvent × Option LoaderError :=
  if !p.singleton then (s, [], none)
  else
    match buildInstance traitRegistry p s with
    | (s1, evs, .error e) => (s1, evs, some e)
    | (s1, evs, .ok _) => ({ s1 with initialised := true }, evs, none)

/-- `PluginLoader.getInstance` (PluginLoader.ts lines 98-148).  Returns
the (possibly updated) loader state, the trace of completed construction
steps, and the returned instance's id or the thrown error.

After the dependency check, the singleton branch initialises the singleton
when the live list is empty — an error thrown there propagates out of
`getInstance` at line 108 — and then re-applies any active mocks through
`instance.prototype[methodName] = ...` (lines 115-123), which throws a
`TypeError` since class instances have no `prototype` member; with no
instance tracked the `instance` variable is `undefined` and its use
likewise throws.  The non-singleton branch invokes the factory, then (with
mocks active) throws the same way at lines 133-138 before the detach hook
and `construct`; with no mocks it proceeds into the construction block,
where `loadTraits` throws for every class not named `Object`. -/
def getInstance (name : String) (p : PluginDef)
    (traitRegistry : List (String × TraitClass)) (registry : List String)
    (s : LoaderState) : LoaderState × List LoaderEvent × Except LoaderError Nat :=
  if !dependenciesFulfilled registry p then
    (s, [], .error (.missingDependency name (unmetDependencies registry p)))
  else if p.singleton then
    match (if s.instances.isEmpty then initialiseSingleton traitRegistry p s
           else (s, [], none)) with
    | (s1, evs, some e) => (s1, evs, .error e)
    | (s1, evs, none) =>
      match s1.instances.head? with
      | none => (s1, evs, .error .typeError)
      | some inst =>
        if s1.mocks.isEmpty then (s1, evs, .ok inst)
        else (s1, evs, .error .typeError)
  else
    let id := s.nextId
    let s1 := { s with nextId := id + 1 }
    if !s.mocks.isEmpty then
      (s1, [.factory id], .error .typeError)
    else
      buildInstance traitRegistry p s

/-- `PluginLoader.mock` (PluginLoader.ts lines 225-241).  Throws
`unknownMethod` when `this.#instance.prototype[methodName]` is falsy;
otherwise records the mock and records, as the displaced original,
`Object.getPrototypeOf(this.#instance)[methodName]` — a read on the parent
class object, not on the factory's prototype.  For an uninitialised
singleton it then calls `initialiseSingleton`: if that throws (inside its
`loadTraits`), the error propagates with the live list still empty and
`initialised` still false, the mock tables already mutated; if it
completes, the subsequent `instance.prototype[methodName] = ...`
assignment (line 239) throws a `TypeError` instead. -/
def mock (p : PluginDef) (traitRegistry : List (String × TraitClass))
    (s : LoaderState) (methodName : String) (callback : Nat) :
    LoaderState × Option LoaderError :=
  if !truthy (propsGet p.protoProps methodName) then
    (s, some (.unknownMethod methodName))
  else
    let s1 := { s with
      mocks := setAssoc s.mocks methodName callback,
      originals := setAssoc s.originals methodName (propsGet p.parentClassProps methodName) }
    if p.singleton && s1.instances.isEmpty then
      match initialiseSingleton traitRegistry p s1 with
      | (s2, _, some e) => (s2, some e)
      | (s2, _, none) => (s2, some .typeError)
    else
      (s1, none)

/-- `PluginLoader.unmock` (PluginLoader.ts lines 246-259).  A name with no
active mock is a no-op.  For a singleton it assigns
`instance.prototype[methodName] = this.#originalFunctions.get(methodName)`;
whether the singleton has an instance (a class instance with no `prototype`
member) or none (`instance` is `undefined`), that assignment throws a
`TypeError` before the maps are cleaned up.  For a non-singleton the mock
and recorded original are removed. -/
def unmock (p : PluginDef) (s : LoaderState) (methodName : String) :
    LoaderState × Option LoaderError :=
  if (lookupAssoc s.mocks methodName).isNone then (s, none)
  else if p.singleton then (s, some .typeError)
  else
    ({ s with
       mocks := eraseAssoc s.mocks methodName,
       originals := eraseAssoc s.originals methodName }, none)

/-- The methods `InnerProxyHandler.get` refuses to resolve
(part_001 line 18). -/
def forbiddenMethods : List String :=
  ["attachAbstracts", "loadInbuilt", "initialise", "initialiseSingletons"]

/-- Outcome of a property read through the internal mediator: a thrown
error carrying the forbidden method's name (interpolated into the
`You cannot use the ... Snowboard method within a plugin.` message), a
callable that obtains an instance of the named plugin, or a fall-through
to `Reflect.get` on the underlying registry object. -/
inductive InnerGetResult where
  | thrown (method : String)
  | pluginGetter (plugin : String)
  | reflectGet
deriving DecidableEq, Repr

/-- `InnerProxyHandler.get` (part_001 lines 14-30) for a string property
key (symbol keys skip both checks and fall through): a forbidden
registry-management name throws; a name whose lowercasing is a registered
plugin resolves to a callable invoking that plugin loader's
`getInstance`; anything else falls through to `Reflect.get`. -/
def innerProxyGet (registry : List String) (prop : String) : InnerGetResult :=
  let propLower := jsToLower prop
  if forbiddenMethods.contains prop then .thrown prop
  else if hasPlugin registry propLower then .pluginGetter propLower
  else .reflectGet

/-- State of a `PluginBase` instance observed by `destructor`: its
`destructed` flag (part_000: initialised `false` by the constructor). -/
structure PluginBaseState where
  destructed : Bool
deriving DecidableEq, Repr

/-- The calls `PluginBase.destructor` makes, in order. -/
inductive DestructorEvent where
  | destructCall
  | detachCall
deriving DecidableEq, Repr

/-- `PluginBase.destructor` (part_000 lines 177-181): calls `destruct()`
(the base implementation is a no-op), then `detach()` — the slot the
loader overwrote with `() => this.#instances.delete(newInstance)`
(PluginLoader.ts line 141), modelled as removing this instance's id from
the loader's live list — then sets `this.destructed = true`.  Returns the
new flag state, the updated live list and the trace of hook calls. -/
def destructor (_s : PluginBaseState) (instances : List Nat) (selfId : Nat) :
    PluginBaseState × List Nat × List DestructorEvent :=
  ({ destructed := true },
   instances.filter (fun i => i != selfId),
   [.destructCall, .detachCall])

/-- Prototype chain of a representative `PluginBase`-derived plugin
instance: the members `PluginBase` declares (part_000), as method values. -/
def basePluginChain : Props :=
  [("constructor", .fn 100), ("getSnowboard", .fn 101), ("isSingleton", .fn 102),
   ("construct", .fn 103), ("init", .fn 104), ("dependencies", .fn 105),
   ("traits", .fn 106), ("listens", .fn 107), ("destruct", .fn 108),
   ("detach", .fn 109), ("destructor", .fn 110)]

/-- A freshly constructed `PluginBase`-derived instance: own properties
`snowboard` and `destructed` assigned by the base constructor, members on
the prototype chain. -/
def samplePluginInstance : PluginInstance :=
  { own := [("snowboard", .obj 1), ("destructed", .boolean false)],
    protoChain := basePluginChain }

/-- Own properties of the `Trait` abstract's class object (a class object
owns `length`, `name` and `prototype`). -/
def traitBaseClassProps : Props :=
  [("length", .num 1), ("name", .str "Trait"), ("prototype", .obj 2)]

/-- Own properties of the `PluginBase` class object. -/
def pluginBaseClassProps : Props :=
  [("length", .num 1), ("name", .str "PluginBase"), ("prototype", .obj 3)]

/-- A `Trait`-derived trait class declaring a prototype method `foo`
(function 201). -/
def traitFooA : TraitClass :=
  { ctorProps := [("snowboard", .undefined)],
    protoOwnProps := [("constructor", .fn 200), ("foo", .fn 201)],
    classOwnNames := ["length", "name", "prototype"],
    parentClassProps := traitBaseClassProps }

/-- A second `Trait`-derived trait class declaring its own prototype
method `foo` (function 211). -/
def traitFooB : TraitClass :=
  { ctorProps := [("snowboard", .undefined)],
    protoOwnProps := [("constructor", .fn 210), ("foo", .fn 211)],
    classOwnNames := ["length", "name", "prototype"],
    parentClassProps := traitBaseClassProps }

/-- A trait registry holding the two `foo`-declaring traits under the
names `a` and `b`. -/
def traitRegistryAB : List (String × TraitClass) :=
  [("a", traitFooA), ("b", traitFooB)]

/-- A `Trait`-derived trait class whose constructor assigns a member under
the reserved name `detach`. -/
def traitDetachGrab : TraitClass :=
  { ctorProps := [("snowboard", .undefined), ("detach", .fn 400)],
    protoOwnProps := [("constructor", .fn 401)],
    classOwnNames := ["length", "name", "prototype"],
    parentClassProps := traitBaseClassProps }

/-- A plain (non-singleton, dependency-free) plugin class named `Test`:
fresh instances walk as an object named `Test` with a callable `traits()`
returning no names and an `undefined` `prototype` member. -/
def plainPlugin : PluginDef :=
  { dependencies := [], singleton := false,
    protoProps := basePluginChain,
    parentClassProps := pluginBaseClassProps,
    freshWalk := .objNode "Test" true [] (.value .undefined),
    freshInstance := samplePluginInstance }

/-- A singleton plugin class named `Flash` with no dependencies and no
requested traits. -/
def singletonPlugin : PluginDef :=
  { dependencies := [], singleton := true,
    protoProps := basePluginChain,
    parentClassProps := pluginBaseClassProps,
    freshWalk := .objNode "Flash" true [] (.value .undefined),
    freshInstance := samplePluginInstance }

/-- A plugin class named `Alert` declaring a dependency on `Modal`. -/
def alertPlugin : PluginDef :=
  { dependencies := ["Modal"], singleton := false,
    protoProps := basePluginChain,
    parentClassProps := pluginBaseClassProps,
    freshWalk := .objNode "Alert" true [] (.value .undefined),
    freshInstance := samplePluginInstance }

/-- A non-singleton plugin class named `Mocked` with a prototype method
`m` (function 300). -/
def mockedPlugin : PluginDef :=
  { dependencies := [], singleton := false,
    protoProps := basePluginChain ++ [("m", .fn 300)],
    parentClassProps := pluginBaseClassProps,
    freshWalk := .objNode "Mocked" true [] (.value .undefined),
    freshInstance := samplePluginInstance }

/-- A loader state with one active mock for method `m` (callback 7). -/
def mockActiveState : LoaderState :=
  { initialState with mocks := [("m", 7)], originals := [("m", JsVal.undefined)] }

/-! Helper lemmas about the association-list primitives and the loader
definitions.  These are shared infrastructure, not claim theorems. -/

theorem lookupAssoc_setAssoc_ne {α : Type} (l : List (String × α)) (k key : String)
    (v : α) (h : key ≠ k) : lookupAssoc (setAssoc l k v) key = lookupAssoc l key := by
  induction l with
  | nil => simp [setAssoc, lookupAssoc, Ne.symm h]
  | cons pr rest ih =>
    obtain ⟨pk, pv⟩ := pr
    by_cases hk1 : pk = k
    · have hpk : ¬ pk = key := by rw [hk1]; exact fun he => h he.symm
      simp [setAssoc, lookupAssoc, if_pos hk1, if_neg hpk]
    · by_cases hpk : pk = key
      · simp [setAssoc, lookupAssoc, if_neg hk1, if_pos hpk]
      · simp [setAssoc, lookupAssoc, if_neg hk1, if_neg hpk, ih]

theorem foldl_and_flag (c : String → Bool) :
    ∀ (l : List String) (b : Bool),
      l.foldl (fun f d => c d && f) b = (b && l.all c) := by
  intro l
  induction l with
  | nil => intro b; simp
  | cons d rest ih =>
    intro b
    rw [List.foldl_cons, ih, List.all_cons]
    cases c d <;> cases b <;> simp

theorem dependenciesFulfilled_eq_all (registry : List String) (p : PluginDef) :
    dependenciesFulfilled registry p = (getDependencies p).all (hasPlugin registry) := by
  simp [dependenciesFulfilled, foldl_and_flag]

theorem exceptMap_ok {E A B : Type} (f : A → B) (a : A) :
    Except.map f (Except.ok a : Except E A) = Except.ok (f a) :=
  rfl

/-- C9: `PluginBase.destructor` calls `destruct`, then the loader-attached
detach hook (removing the instance from the loader's live list), then sets
`destructed = true`.  A second `destructor` call throws nothing (the
operation is total), performs the same hook calls and returns the same
state: `destructed` stays `true` and the live list is unchanged.  The flag
is `true` after every `destructor` call and no modelled operation clears
it, so it is never reset from `true` to `false`. -/
theorem destructor_idempotent_monotonic (s : PluginBaseState) (instances : List Nat)
    (selfId : Nat) :
    (destructor s instances selfId).1.destructed = true ∧
    (destructor s instances selfId).2.2 = [.destructCall, .detachCall] ∧
    destructor (destructor s instances selfId).1 (destructor s instances selfId).2.1 selfId
      = destructor s instances selfId := by
  refine ⟨rfl, rfl, ?_⟩
  simp [destructor, List.filter_filter]

/-- C8: a property read through the internal mediator (`InnerProxyHandler.get`)
throws a descriptive error naming the accessed method exactly on the fixed
registry-management set (`attachAbstracts`, `loadInbuilt`, `initialise`,
`initialiseSingletons`); any other string property resolves normally — a
name whose lowercasing is a registered plugin resolves to an
instance-obtaining callable, and anything else falls through to the
underlying registry via `Reflect.get`. -/
theorem innerProxy_forbidden_set (registry : List String) (prop : String) :
    (prop ∈ forbiddenMethods → innerProxyGet registry prop = .thrown prop) ∧
    (prop ∉ forbiddenMethods → hasPlugin registry (jsToLower prop) = true →
      innerProxyGet registry prop = .pluginGetter (jsToLower prop)) ∧
    (prop ∉ forbiddenMethods → hasPlugin registry (jsToLower prop) = false →
      innerProxyGet registry prop = .reflectGet) := by
  refine ⟨fun h => ?_, fun h hp => ?_, fun h hp => ?_⟩
  · simp [innerProxyGet, h]
  · simp [innerProxyGet, h, hp]
  · simp [innerProxyGet, h, hp]

/-- Witness for C8 at concrete inputs: `initialise` is in the forbidden set
and the read throws naming it; with `modal` registered, the read of
`Modal` is not forbidden and resolves to the instance-obtaining callable
for `modal`. -/
theorem innerProxy_forbidden_set_witness :
    ("initialise" ∈ forbiddenMethods ∧
      innerProxyGet ["modal"] "initialise" = .thrown "initialise") ∧
    ("Modal" ∉ forbiddenMethods ∧ hasPlugin ["modal"] (jsToLower "Modal") = true ∧
      innerProxyGet ["modal"] "Modal" = .pluginGetter (jsToLower "Modal")) :=
  ⟨⟨by decide, (innerProxy_forbidden_set ["modal"] "initialise").1 (by decide)⟩,
   ⟨by decide, by decide,
    (innerProxy_forbidden_set ["modal"] "Modal").2.1 (by decide) (by decide)⟩⟩

theorem buildInstance_shape (treg : List (String × TraitClass)) (p : PluginDef)
    (s s1 : LoaderState) (evs : List LoaderEvent) (r : Except LoaderError Nat)
    (h : buildInstance treg p s = (s1, evs, r)) :
    (∃ id, r = .ok id) ∨ r = .error .typeError := by
  simp only [buildInstance] at h
  cases hlt : loadTraitsTS treg p.freshWalk p.freshInstance with
  | error e =>
    rw [hlt] at h
    have h3 := congrArg (fun t => t.2.2) h
    exact Or.inr h3.symm
  | ok pr =>
    rw [hlt] at h
    have h3 := congrArg (fun t => t.2.2) h
    exact Or.inl ⟨s.nextId, h3.symm⟩

theorem initialiseSingleton_shape (treg : List (String × TraitClass)) (p : PluginDef)
    (s s2 : LoaderState) (evs : List LoaderEvent) (oe : Option LoaderError)
    (h : initialiseSingleton treg p s = (s2, evs, oe)) :
    oe = none ∨ oe = some LoaderError.typeError := by
  unfold initialiseSingleton at h
  by_cases hs : p.singleton = true
  · rw [if_neg (by simp [hs])] at h
    rcases hb : buildInstance treg p s with ⟨s1, evs1, r⟩
    rw [hb] at h
    rcases buildInstance_shape treg p s s1 evs1 r hb with ⟨id, hid⟩ | herr
    · subst hid
      have h3 := congrArg (fun t => t.2.2) h
      exact Or.inl h3.symm
    · subst herr
      have h3 := congrArg (fun t => t.2.2) h
      exact Or.inr h3.symm
  · rw [if_pos (by simp [Bool.not_eq_true] at hs; simp [hs])] at h
    have h3 := congrArg (fun t => t.2.2) h
    exact Or.inl h3.symm

theorem mock_not_unknown_of_truthy (p : PluginDef) (treg : List (String × TraitClass))
    (s : LoaderState) (m : String) (cb : Nat)
    (ht : truthy (propsGet p.protoProps m) = true) :
    (mock p treg s m cb).2 = none ∨ (mock p treg s m cb).2 = some LoaderError.typeError := by
  unfold mock
  dsimp only
  rw [if_neg (by simp [ht])]
  split
  · rcases hinit : initialiseSingleton treg p
        { s with mocks := setAssoc s.mocks m cb,
                 originals := setAssoc s.originals m (propsGet p.parentClassProps m) } with
      ⟨s2, evs2, oe⟩
    rcases initialiseSingleton_shape treg p _ s2 evs2 oe hinit with hn | hte
    · subst hn; exact Or.inr rfl
    · subst hte; exact Or.inr rfl
  · exact Or.inl rfl

/-- C10: `mock`'s guard is a truthiness check on
`this.#instance.prototype[methodName]`, not a function check: it throws
the unknown-method error exactly when that member is falsy.  Hence an
existing member holding a falsy value (here `false`) cannot be mocked,
while a truthy non-function member (here the number 5) can — and in both
divergence cases `hasMethod`, which tests `typeof === 'function'`, returns
`false`. -/
theorem mock_guard_truthiness (p : PluginDef) (treg : List (String × TraitClass))
    (s : LoaderState) (m : String) (cb : Nat) :
    ((mock p treg s m cb).2 = some (.unknownMethod m) ↔
      truthy (propsGet p.protoProps m) = false) ∧
    (∃ (q : PluginDef) (k : String), propsGet q.protoProps k ≠ JsVal.undefined ∧
      hasMethod q k = false ∧ (mock q [] initialState k 0).2 = some (.unknownMethod k)) ∧
    (∃ (q : PluginDef) (k : String), hasMethod q k = false ∧
      (mock q [] initialState k 0).2 = none) := by
  refine ⟨?_, ?_, ?_⟩
  · constructor
    · intro h
      by_contra hc
      simp only [Bool.not_eq_false] at hc
      rcases mock_not_unknown_of_truthy p treg s m cb hc with h0 | h0 <;>
        rw [h] at h0 <;> simp at h0
    · intro h
      simp [mock, h]
  · exact ⟨{ dependencies := [], singleton := false,
             protoProps := [("m", .boolean false)], parentClassProps := [],
             freshWalk := .value .undefined, freshInstance := ⟨[], []⟩ },
           "m", by decide, by decide, by decide⟩
  · exact ⟨{ dependencies := [], singleton := false,
             protoProps := [("m", .num 5)], parentClassProps := [],
             freshWalk := .value .undefined, freshInstance := ⟨[], []⟩ },
           "m", by decide, by decide⟩

/-- C2: when the dependency list contains an unregistered name,
`getInstance` throws the missing-dependency error carrying the loader's
plugin name and exactly the unmet dependency names — every lowercased
dependency missing from the registry, so the message names each unmet
dependency — and the unmet list is nonempty.  The loader state, in
particular its live-instance list, is returned unchanged: no instance of
the plugin is created by the failing call. -/
theorem getInstance_missing_dependency (name : String) (p : PluginDef)
    (registry : List String) (s : LoaderState)
    (traitRegistry : List (String × TraitClass))
    (h : dependenciesFulfilled registry p = false) :
    getInstance name p traitRegistry registry s =
      (s, [], .error (.missingDependency name (unmetDependencies registry p))) ∧
    unmetDependencies registry p ≠ [] ∧
    (∀ d, d ∈ unmetDependencies registry p ↔
      d ∈ getDependencies p ∧ hasPlugin registry d = false) := by
  refine ⟨by simp [getInstance, h], ?_, ?_⟩
  · rw [dependenciesFulfilled_eq_all] at h
    have hex : ∃ d ∈ getDependencies p, hasPlugin registry d = false := by
      by_contra hc
      push_neg at hc
      have hall : (getDependencies p).all (hasPlugin registry) = true := by
        rw [List.all_eq_true]
        intro x hx
        simpa [Bool.not_eq_false] using hc x hx
      rw [hall] at h
      simp at h
    obtain ⟨d, hd, hdp⟩ := hex
    have hmem : d ∈ unmetDependencies registry p := by
      refine List.mem_filter.mpr ⟨hd, ?_⟩
      simpa [getPluginNames, hasPlugin] using hdp
    exact List.ne_nil_of_mem hmem
  · intro d
    simp only [unmetDependencies, List.mem_filter, getPluginNames, hasPlugin]
    constructor
    · rintro ⟨hd, hdp⟩
      exact ⟨hd, by simpa using hdp⟩
    · rintro ⟨hd, hdp⟩
      exact ⟨hd, by simpa using hdp⟩

/-- Witness for C2: plugin `alert` depends on `Modal`; with an empty
registry the call fails naming `modal` and leaves the state unchanged. -/
theorem getInstance_missing_dependency_witness :
    dependenciesFulfilled [] alertPlugin = false ∧
    (getInstance "alert" alertPlugin [] [] initialState =
      (initialState, [],
       .error (.missingDependency "alert" (unmetDependencies [] alertPlugin))) ∧
     unmetDependencies [] alertPlugin ≠ [] ∧
     (∀ d, d ∈ unmetDependencies [] alertPlugin ↔
       d ∈ getDependencies alertPlugin ∧ hasPlugin [] d = false)) :=
  ⟨by decide,
   getInstance_missing_dependency "alert" alertPlugin [] initialState [] (by decide)⟩

/-- C1 evaluated at the failing input (for the code bug): a fresh
singleton loader for plugin class `Flash` (dependencies fulfilled, no
traits requested).  The first `getInstance` call invokes the factory,
attaches the detach hook and calls `construct`, then throws a `TypeError`
inside `loadTraits` — the line-294 walk reassigns `currentPrototype` to
the instance's nonexistent `prototype` member and the loop condition then
dereferences it — so `init` never runs, no instance is recorded
(`instances` stays empty) and `initialised` stays false.  A second call
therefore repeats the whole construction attempt (a second factory
invocation and `construct` call) and throws identically: no call ever
returns an instance, and the construct cycle is re-attempted on every
call rather than occurring exactly once. -/
theorem singleton_never_returns_eval :
    (getInstance "flash" singletonPlugin [] [] initialState).2.2 = .error .typeError ∧
    (getInstance "flash" singletonPlugin [] [] initialState).2.1
      = [.factory 0, .attachDetach 0, .constructHook 0] ∧
    (getInstance "flash" singletonPlugin [] [] initialState).1.instances = [] ∧
    (getInstance "flash" singletonPlugin [] [] initialState).1.initialised = false ∧
    (getInstance "flash" singletonPlugin [] []
        (getInstance "flash" singletonPlugin [] [] initialState).1).2.2
      = .error .typeError ∧
    (getInstance "flash" singletonPlugin [] []
        (getInstance "flash" singletonPlugin [] [] initialState).1).2.1
      = [.factory 1, .attachDetach 1, .constructHook 1] ∧
    (getInstance "flash" singletonPlugin [] []
        (getInstance "flash" singletonPlugin [] [] initialState).1).1.instances = [] :=
  ⟨rfl, by decide, by decide, by decide, rfl, by decide, by decide⟩

/-- C4 evaluated at the failing inputs (for the code bug): a non-singleton
plugin class `Test` with fulfilled dependencies.  With no mocks active,
`getInstance` completes only the factory invocation, the detach-hook
attachment and `construct`, then throws a `TypeError` inside the
`loadTraits` walk: trait composition never completes, `init` never runs,
no instance is recorded and nothing is returned.  With an active mock it
throws even earlier — re-applying the mock through the new instance's
nonexistent `prototype` member directly after the factory invocation,
before the detach hook and `construct`, and not after recording the
instance as the claim orders the steps.  No `getInstance` call on a class
plugin performs the claimed sequence. -/
theorem nonsingleton_never_completes_eval :
    (getInstance "test" plainPlugin [] [] initialState).2.2 = .error .typeError ∧
    (getInstance "test" plainPlugin [] [] initialState).2.1
      = [.factory 0, .attachDetach 0, .constructHook 0] ∧
    (getInstance "test" plainPlugin [] [] initialState).1.instances = [] ∧
    (getInstance "test" plainPlugin [] [] mockActiveState).2.2 = .error .typeError ∧
    (getInstance "test" plainPlugin [] [] mockActiveState).2.1 = [.factory 0] ∧
    (getInstance "test" plainPlugin [] [] mockActiveState).1.instances = [] :=
  ⟨rfl, by decide, by decide, rfl, by decide, by decide⟩

theorem exceptMap_error {E A B : Type} (f : A → B) (e : E) :
    Except.map f (Except.error e : Except E A) = Except.error e :=
  rfl

theorem exceptBind_ok {E A B : Type} (a : A) (f : A → Except E B) :
    Except.bind (Except.ok a) f = f a :=
  rfl

theorem exceptBind_error {E A B : Type} (e : E) (f : A → Except E B) :
    Except.bind (Except.error e) f = (Except.error e : Except E B) :=
  rfl

theorem lookupAssoc_foldl_reserved_skip (r : String) (hr : r ∈ reservedNamesTS)
    (pcp : Props) :
    ∀ (names : List String) (acc : DescProps),
      lookupAssoc (names.foldl (fun acc n =>
        if reservedNamesTS.contains n then acc
        else setAssoc acc n (lookupAssoc pcp n)) acc) r = lookupAssoc acc r := by
  intro names
  induction names with
  | nil => intro acc; rfl
  | cons n rest ih =>
    intro acc
    rw [List.foldl_cons]
    by_cases hn : reservedNamesTS.contains n = true
    · rw [if_pos hn]; exact ih acc
    · rw [if_neg hn, ih]
      apply lookupAssoc_setAssoc_ne
      intro he
      subst he
      exact hn (List.elem_iff.mpr hr)

theorem lookupAssoc_descriptorsTS_reserved (t : TraitClass) (r : String)
    (h : r ∈ reservedNamesTS) :
    lookupAssoc (descriptorsTS t) r = lookupAssoc (ctorDescriptors t) r :=
  lookupAssoc_foldl_reserved_skip r h t.parentClassProps t.classOwnNames (ctorDescriptors t)

theorem lookupAssoc_defineFold_not_mem (r : String) :
    ∀ (nd : DescProps) (own : Props), (∀ p ∈ nd, p.1 ≠ r) →
      lookupAssoc (nd.foldl (fun own p => setAssoc own p.1 (p.2.getD .undefined)) own) r
        = lookupAssoc own r := by
  intro nd
  induction nd with
  | nil => intro own _; rfl
  | cons p rest ih =>
    intro own h
    rw [List.foldl_cons, ih _ (fun q hq => h q (List.mem_cons_of_mem p hq))]
    exact lookupAssoc_setAssoc_ne _ _ _ _
      (fun he => h p (List.mem_cons_self p rest) he.symm)

theorem applyDescriptors_preserves (ap : PluginInstance → String → JsVal)
    (ds : DescProps) (inst inst1 : PluginInstance) (r : String)
    (h2 : ap inst r ≠ JsVal.undefined)
    (h : applyDescriptors ap ds inst = .ok inst1) :
    lookupAssoc inst1.own r = lookupAssoc inst.own r ∧ inst1.protoChain = inst.protoChain := by
  unfold applyDescriptors at h
  split at h
  · exact absurd h (by simp)
  · cases h
    refine ⟨?_, rfl⟩
    apply lookupAssoc_defineFold_not_mem
    intro p hp he
    have hflt := (List.mem_filter.mp hp).2
    rw [he] at hflt
    exact h2 (by simpa using hflt)

theorem applyTraitsTS_preserves (treg : List (String × TraitClass)) :
    ∀ (names : List String) (inst inst1 : PluginInstance) (w : List String) (r : String),
      protoGet inst r ≠ JsVal.undefined →
      applyTraitsTS treg names inst = .ok (inst1, w) →
      lookupAssoc inst1.own r = lookupAssoc inst.own r ∧
        inst1.protoChain = inst.protoChain := by
  intro names
  induction names with
  | nil =>
    intro inst inst1 w r h2 h
    simp only [applyTraitsTS] at h
    cases h
    exact ⟨rfl, rfl⟩
  | cons n rest ih =>
    intro inst inst1 w r h2 h
    cases hl : lookupTrait treg n with
    | none =>
      simp only [applyTraitsTS, hl] at h
      cases hrec : applyTraitsTS treg rest inst with
      | error e => rw [hrec] at h; exact absurd h (by simp [exceptMap_error])
      | ok pr =>
        rw [hrec, exceptMap_ok] at h
        cases h
        exact ih inst pr.1 pr.2 r h2 (by rw [hrec])
    | some t =>
      simp only [applyTraitsTS, hl] at h
      cases ho : applyOneTraitTS t inst with
      | error e => rw [ho] at h; exact absurd h (by simp [exceptBind_error])
      | ok i1 =>
        rw [ho, exceptBind_ok] at h
        have hp1 := applyDescriptors_preserves protoGet (descriptorsTS t) inst i1 r h2 ho
        have h2i : protoGet i1 r ≠ JsVal.undefined := by
          rw [protoGet, hp1.2]
          exact h2
        have hrest := ih i1 inst1 w r h2i h
        exact ⟨hrest.1.trans hp1.1, hrest.2.trans hp1.2⟩

/-- C5: the TypeScript trait composer never copies a reserved lifecycle
member name (`constructor`, `construct`, `init`, `getSnowboard`,
`destruct`, `destructor`, `detach`) from a trait onto a plugin instance,
even when a trait defines members under those names.  First conjunct: the
member-collection loop skips every reserved name, so a reserved name can
enter the descriptor table only as a constructor-assigned trait property.
Second conjunct: on a plugin instance, whose prototype chain defines every
reserved member (the `PluginBase` contract), composition leaves the
instance's own entry for the reserved name, and its prototype chain,
exactly as they were. -/
theorem traits_reserved_never_copied (treg : List (String × TraitClass))
    (names : List String) (inst : PluginInstance) (r : String)
    (h1 : r ∈ reservedNamesTS) (h2 : protoGet inst r ≠ JsVal.undefined) :
    (∀ t : TraitClass,
      lookupAssoc (descriptorsTS t) r = lookupAssoc (ctorDescriptors t) r) ∧
    (∀ inst1 w, applyTraitsTS treg names inst = .ok (inst1, w) →
      lookupAssoc inst1.own r = lookupAssoc inst.own r ∧
        inst1.protoChain = inst.protoChain) :=
  ⟨fun t => lookupAssoc_descriptorsTS_reserved t r h1,
   fun inst1 w h => applyTraitsTS_preserves treg names inst inst1 w r h2 h⟩

/-- Witness for C5: a trait whose constructor assigns a member under the
reserved name `detach`, applied to a `PluginBase`-derived instance. -/
theorem traits_reserved_never_copied_witness :
    "detach" ∈ reservedNamesTS ∧
    protoGet samplePluginInstance "detach" ≠ JsVal.undefined ∧
    ((∀ t : TraitClass,
       lookupAssoc (descriptorsTS t) "detach" = lookupAssoc (ctorDescriptors t) "detach") ∧
     (∀ inst1 w,
       applyTraitsTS [("grab", traitDetachGrab)] ["grab"] samplePluginInstance
         = .ok (inst1, w) →
       lookupAssoc inst1.own "detach" = lookupAssoc samplePluginInstance.own "detach" ∧
         inst1.protoChain = samplePluginInstance.protoChain)) :=
  ⟨by decide, by decide,
   traits_reserved_never_copied [("grab", traitDetachGrab)] ["grab"]
     samplePluginInstance "detach" (by decide) (by decide)⟩

/-- C3 evaluated at the failing input (for the code bug): traits `a` and
`b` both declare prototype method `foo` (functions 201 and 211), and a
plugin instance requests `traits() = ['a', 'b']`.  The TypeScript
`loadTraits` leaves `foo` absent (`undefined`) on the composed instance —
not trait `a`'s implementation — because it collects member names from
`Object.getOwnPropertyNames(TraitInstance)` (the class object: `length`,
`name`, `prototype`) with descriptors from the class's parent, so trait
prototype methods are never copied; and its already-present filter reads
`Object.getPrototypeOf(instance)[key]`, the prototype chain only, so own
members grafted by an earlier trait would not block a later one.  The
part_003 variant at the same input yields trait `a`'s `foo` — the
first-writer-wins behavior the claim, the spec and the TypeScript
function's own documentation describe. -/
theorem traits_first_wins_failing_eval :
    lookupAssoc traitFooA.protoOwnProps "foo" = some (JsVal.fn 201) ∧
    lookupAssoc traitFooB.protoOwnProps "foo" = some (JsVal.fn 211) ∧
    (applyTraitsTS traitRegistryAB ["a", "b"] samplePluginInstance).toOption.map
      (fun r => instGet r.1 "foo") = some JsVal.undefined ∧
    (applyTraitsJS traitRegistryAB ["a", "b"] samplePluginInstance).toOption.map
      (fun r => instGet r.1 "foo") = some (JsVal.fn 201) :=
  ⟨by decide, by decide, by decide, by decide⟩

/-- C6 evaluated at the failing input (for the code bug): a non-singleton
plugin whose prototype has method `m` (function 300).  `mock('m', 7)`
succeeds but records `undefined` — the value of
`Object.getPrototypeOf(factory)['m']`, a read on the parent class object —
as the displaced original instead of the factory prototype's `m`; the
subsequent `getInstance` throws a `TypeError` while re-applying the mock
through the new instance's nonexistent `prototype` member instead of
returning an instance whose `m` invokes the mock; on the singleton path
`unmock` throws the same way before cleaning its tables, so the original
is never restored.  Unmocking a name with no active mock is a no-op. -/
theorem mock_roundtrip_broken_eval :
    propsGet mockedPlugin.protoProps "m" = JsVal.fn 300 ∧
    (mock mockedPlugin [] initialState "m" 7).2 = none ∧
    lookupAssoc (mock mockedPlugin [] initialState "m" 7).1.originals "m"
      = some JsVal.undefined ∧
    (getInstance "mocked" mockedPlugin [] []
        (mock mockedPlugin [] initialState "m" 7).1).2.2 = .error .typeError ∧
    (getInstance "mocked" mockedPlugin [] []
        (mock mockedPlugin [] initialState "m" 7).1).2.1 = [.factory 0] ∧
    unmock { mockedPlugin with singleton := true }
      (mock mockedPlugin [] initialState "m" 7).1 "m"
      = ((mock mockedPlugin [] initialState "m" 7).1, some .typeError) ∧
    unmock mockedPlugin initialState "m" = (initialState, none) :=
  ⟨by decide, by decide, by decide, rfl, by decide, by decide, by decide⟩

end Snowboard
